import Mathlib

/-!
# WebmMfUtil.MfMediaStream (common/mfutil.cpp): the stream-event bridge

A shallow embedding of `MfMediaStream`: the object that registers itself as the
`IMFAsyncCallback` of a Media Foundation stream, and lets a caller block in
`WaitForStreamEvent` until the stream's next event has been delivered to `Invoke`.

Conventions of the embedding.

* `HRESULT` is a signed 32-bit code, embedded as `Int`; the code only ever tests its sign
  (`FAILED`) and copies it, so no arithmetic on it is modelled.
* `MediaEventType` is a `DWORD`, embedded as `Nat`; it is only compared.
* `ref_count_` is a 32-bit counter; `InterlockedIncrement` and `InterlockedDecrement` wrap
  modulo `2 ^ 32`.
* Every call the object makes on a collaborator (the stream, the event generator, the
  delivered event, the `EventWaiter`) gets its result from an explicit environment argument,
  and is appended to the ghost field `calls`, so that "which calls were made" can be stated.
* The waiter thread and the callback thread are sequentialised: the completions the stream
  delivers between a successful `BeginGetEvent` and the return of `Wait` are the list
  `deliveries` of the environment of `WaitForStreamEvent`, run through `Invoke` in order.
  A `Wait` that never returns is the result `none`.
-/

namespace WebmMfUtil

/-- A Windows `HRESULT` (signed 32-bit). -/
abbrev HRESULT := Int

/-- A Media Foundation `MediaEventType` (`DWORD`). -/
abbrev MediaEventType := Nat

/-- The Windows SDK test `FAILED(hr)`: the code is negative. -/
def FAILED (hr : HRESULT) : Bool := decide (hr < 0)

/-- Windows SDK (winerror.h) `S_OK`. -/
def S_OK : HRESULT := 0

/-- Windows SDK (winerror.h) `E_FAIL = 0x80004005`. -/
def E_FAIL : HRESULT := 0x80004005 - 2 ^ 32

/-- Windows SDK (winerror.h) `E_UNEXPECTED = 0x8000FFFF`. -/
def E_UNEXPECTED : HRESULT := 0x8000FFFF - 2 ^ 32

/-- Windows SDK (winerror.h) `E_INVALIDARG = 0x80070057`. -/
def E_INVALIDARG : HRESULT := 0x80070057 - 2 ^ 32

/-- Windows SDK (winerror.h) `E_OUTOFMEMORY = 0x8007000E`. -/
def E_OUTOFMEMORY : HRESULT := 0x8007000E - 2 ^ 32

/-- Windows SDK (mfobjects.h) `MEStreamStarted = 202`. -/
def MEStreamStarted : MediaEventType := 202

/-- Windows SDK (mfobjects.h) `MEStreamSeeked = 204`. -/
def MEStreamSeeked : MediaEventType := 204

/-- Ghost record of one call made on a collaborator, with the code it returned. -/
inductive Call where
  | QueryInterface (hr : HRESULT)
  | EventCreate (hr : HRESULT)
  | EndGetEvent (hr : HRESULT)
  | GetType (hr : HRESULT)
  | EventSet (hr : HRESULT)
  | BeginGetEvent (hr : HRESULT)
  | EventWait (hr : HRESULT)
deriving DecidableEq, Repr

/-- Modelled from the spec: the `EventWaiter` class (eventutil.hpp, member `stream_event_`) is
not among the sources. The spec describes it as "an owned binary wait/signal object" offering
set/wait, whose `Wait()` has no timeout. Its state is one bit. -/
structure EventWaiter where
  signaled : Bool
deriving DecidableEq, Repr

/-- Modelled from the spec: `EventWaiter::Create()`, missing from the sources. The result code
`hr` comes from the environment; a successful creation yields an unsignalled object. -/
def EventWaiter.Create (e : EventWaiter) (hr : HRESULT) : EventWaiter × HRESULT :=
  if FAILED hr then (e, hr) else ({ signaled := false }, hr)

/-- Modelled from the spec: `EventWaiter::Set()`, missing from the sources. The result code
`hr` comes from the environment; a successful `Set` leaves the object signalled. -/
def EventWaiter.Set (e : EventWaiter) (hr : HRESULT) : EventWaiter × HRESULT :=
  if FAILED hr then (e, hr) else ({ signaled := true }, hr)

/-- Modelled from the spec: `EventWaiter::Wait()`, missing from the sources. A primitive-level
failure `hr` (from the environment) is returned at once. Otherwise the call returns `hr` when
the object is signalled, consuming the signal, and never returns (`none`) when it is not:
there is no timeout. -/
def EventWaiter.Wait (e : EventWaiter) (hr : HRESULT) : Option (EventWaiter × HRESULT) :=
  if FAILED hr then some (e, hr)
  else if e.signaled then some ({ signaled := false }, hr)
  else none

/-- The member variables of `MfMediaStream`, and the ghost log `calls`.
Interface pointers are addresses, `0` being the null pointer. -/
structure MfMediaStream where
  expected_event_ : MediaEventType
  ref_count_ : Nat
  stream_event_error_ : HRESULT
  stream_event_recvd_ : MediaEventType
  stream_event_ : EventWaiter
  ptr_stream_ : Nat
  ptr_event_queue_ : Nat
  calls : List Call
deriving DecidableEq, Repr

/-- The constructor `MfMediaStream::MfMediaStream()`. -/
def MfMediaStream.ctor : MfMediaStream :=
  { expected_event_ := 0
    ref_count_ := 0
    stream_event_error_ := S_OK
    stream_event_recvd_ := 0
    stream_event_ := { signaled := false }
    ptr_stream_ := 0
    ptr_event_queue_ := 0
    calls := [] }

/-- Appends a collaborator call to the ghost log. -/
def MfMediaStream.log (s : MfMediaStream) (c : Call) : MfMediaStream :=
  { s with calls := s.calls ++ [c] }

/-- The method `MfMediaStream::AddRef`: `InterlockedIncrement` on the 32-bit count; returns
the new state and the incremented count. -/
def AddRef (s : MfMediaStream) : MfMediaStream × Nat :=
  let ref_count := (s.ref_count_ + 1) % 2 ^ 32
  ({ s with ref_count_ := ref_count }, ref_count)

/-- The method `MfMediaStream::Release`: `InterlockedDecrement` on the 32-bit count; when the
new count is zero the object is deleted (`none`). Returns the surviving object, if any, and
the decremented count. -/
def Release (s : MfMediaStream) : Option MfMediaStream × Nat :=
  let ref_count := (s.ref_count_ + (2 ^ 32 - 1)) % 2 ^ 32
  if ref_count = 0 then (none, ref_count)
  else (some { s with ref_count_ := ref_count }, ref_count)

/-- What the environment answers during `Create_`. -/
structure CreateEnv where
  /-- Result of `ptr_stream_->QueryInterface(IID_IMFMediaEventGenerator, ...)`. -/
  qi_hr : HRESULT
  /-- The interface pointer `QueryInterface` stores on success. -/
  qi_ptr : Nat
  /-- Result of `stream_event_.Create()`. -/
  event_hr : HRESULT
deriving DecidableEq, Repr

/-- The method `MfMediaStream::Create_`. -/
def Create_ (s : MfMediaStream) (ptr_stream : Nat) (env : CreateEnv) :
    MfMediaStream × HRESULT :=
  let s := { s with ptr_stream_ := ptr_stream }
  let hr := env.qi_hr
  let s := s.log (Call.QueryInterface hr)
  if FAILED hr then
    (s, E_FAIL)
  else
    let s := { s with ptr_event_queue_ := env.qi_ptr }
    let r := s.stream_event_.Create env.event_hr
    let hr := r.2
    let s := { s with stream_event_ := r.1 }
    let s := s.log (Call.EventCreate hr)
    if FAILED hr then
      (s, hr)
    else
      (s, hr)

/-- What `MfMediaStream::Create` hands back: the returned code, the object stored through
`ptr_instance` (written on success only), and the ghost log of the collaborator calls that
were made on the way. -/
structure CreateResult where
  hr : HRESULT
  ptr_instance : Option MfMediaStream
  calls : List Call
deriving DecidableEq, Repr

/-- The static factory `MfMediaStream::Create`. `ptr_mfstream` is the source pointer (`0` is
null); `alloc_ok` tells whether `new (std::nothrow) MfMediaStream()` returned an object. -/
def Create (ptr_mfstream : Nat) (alloc_ok : Bool) (env : CreateEnv) : CreateResult :=
  if ptr_mfstream = 0 then
    { hr := E_INVALIDARG, ptr_instance := none, calls := [] }
  else if !alloc_ok then
    { hr := E_OUTOFMEMORY, ptr_instance := none, calls := [] }
  else
    let r := Create_ MfMediaStream.ctor ptr_mfstream env
    let hr := r.2
    if FAILED hr then
      { hr := hr, ptr_instance := none, calls := r.1.calls }
    else
      let ptr_stream := (AddRef r.1).1
      { hr := hr, ptr_instance := some ptr_stream, calls := ptr_stream.calls }

/-- The handler `MfMediaStream::OnStreamStarted_`. -/
def OnStreamStarted_ (s : MfMediaStream) : MfMediaStream × HRESULT :=
  ({ s with stream_event_error_ := S_OK }, S_OK)

/-- The handler `MfMediaStream::OnStreamSeeked_`. -/
def OnStreamSeeked_ (s : MfMediaStream) : MfMediaStream × HRESULT :=
  ({ s with stream_event_error_ := S_OK }, S_OK)

/-- What the environment answers during one run of the callback `Invoke`. -/
structure InvokeEnv where
  /-- Result of `ptr_event_queue_->EndGetEvent(pAsyncResult, &ptr_event)`. -/
  end_hr : HRESULT
  /-- Result of `ptr_event->GetType(&event_type)`. -/
  type_hr : HRESULT
  /-- The type tag `GetType` stores. -/
  event_type : MediaEventType
  /-- Result of `stream_event_.Set()`. -/
  set_hr : HRESULT
deriving DecidableEq, Repr

/-- The callback `MfMediaStream::Invoke` (the `IMFAsyncCallback` method). -/
def Invoke (s : MfMediaStream) (env : InvokeEnv) : MfMediaStream × HRESULT :=
  let hr := env.end_hr
  let s := s.log (Call.EndGetEvent hr)
  if FAILED hr then
    (s, E_FAIL)
  else
    let hr := env.type_hr
    let s := s.log (Call.GetType hr)
    if FAILED hr then
      (s, E_FAIL)
    else
      let event_type := env.event_type
      if 0 ≠ s.expected_event_ ∧ event_type ≠ s.expected_event_ then
        (s, E_FAIL)
      else
        let s := { s with stream_event_recvd_ := event_type }
        let s :=
          if s.stream_event_recvd_ = MEStreamStarted then (OnStreamStarted_ s).1
          else if s.stream_event_recvd_ = MEStreamSeeked then (OnStreamSeeked_ s).1
          else s
        let r := s.stream_event_.Set env.set_hr
        let s := { s with stream_event_ := r.1 }
        let s := s.log (Call.EventSet r.2)
        (s, r.2)

/-- The callback thread: the completions delivered to `Invoke`, in order. -/
def deliver (s : MfMediaStream) : List InvokeEnv → MfMediaStream
  | [] => s
  | d :: ds => deliver (Invoke s d).1 ds

/-- What the environment answers during one `WaitForStreamEvent`. -/
structure WaitEnv where
  /-- Result of `ptr_stream_->BeginGetEvent(this, NULL)`. -/
  begin_hr : HRESULT
  /-- The runs of `Invoke` on the callback thread before `Wait` returns. -/
  deliveries : List InvokeEnv
  /-- Result of `stream_event_.Wait()`, when it returns. -/
  wait_hr : HRESULT
deriving DecidableEq, Repr

/-- The `return` statement through which `WaitForStreamEvent` leaves (ghost). -/
inductive WaitExit where
  | begin_failed
  | wait_failed
  | handler_failed
  | unexpected
  | ok
deriving DecidableEq, Repr

/-- The outcome of a `WaitForStreamEvent` that returns. -/
structure WaitResult where
  state : MfMediaStream
  hr : HRESULT
  exit : WaitExit
deriving DecidableEq, Repr

/-- The first half of `WaitForStreamEvent`: store the expected type, issue `BeginGetEvent`. -/
def beginWait (s : MfMediaStream) (event_type : MediaEventType) (begin_hr : HRESULT) :
    MfMediaStream :=
  let s := { s with expected_event_ := event_type }
  s.log (Call.BeginGetEvent begin_hr)

/-- The object as the waiter finds it when `Wait` is about to return: the request has been
issued and the callback thread has run its deliveries. -/
def atWakeup (s : MfMediaStream) (event_type : MediaEventType) (env : WaitEnv) :
    MfMediaStream :=
  deliver (beginWait s event_type env.begin_hr) env.deliveries

/-- The method `MfMediaStream::WaitForStreamEvent`; `none` when `Wait` never returns. -/
def WaitForStreamEvent (s : MfMediaStream) (event_type : MediaEventType) (env : WaitEnv) :
    Option WaitResult :=
  let hr := env.begin_hr
  let s0 := beginWait s event_type hr
  if FAILED hr then
    some { state := s0, hr := hr, exit := WaitExit.begin_failed }
  else
    let s := atWakeup s event_type env
    match s.stream_event_.Wait env.wait_hr with
    | none => none
    | some r =>
      let hr := r.2
      let s := { s with stream_event_ := r.1 }
      let s := s.log (Call.EventWait hr)
      if FAILED hr then
        some { state := s, hr := hr, exit := WaitExit.wait_failed }
      else if FAILED s.stream_event_error_ then
        some { state := s, hr := s.stream_event_error_, exit := WaitExit.handler_failed }
      else if s.stream_event_recvd_ ≠ s.expected_event_ then
        some { state := s, hr := E_UNEXPECTED, exit := WaitExit.unexpected }
      else
        some { state := s, hr := hr, exit := WaitExit.ok }

/-- The calls logged between the state `before` and the later state `after`. -/
def newCalls (before after : MfMediaStream) : List Call :=
  after.calls.drop before.calls.length

/-- One thing that can happen to a live object: a method call that returns, a run of the
callback, or the first half of a `WaitForStreamEvent` whose `Wait` has not yet returned. -/
inductive Step : MfMediaStream → MfMediaStream → Prop where
  | create_ (s : MfMediaStream) (ptr_stream : Nat) (env : CreateEnv) :
      Step s (Create_ s ptr_stream env).1
  | addRef (s : MfMediaStream) : Step s (AddRef s).1
  | release (s s2 : MfMediaStream) : (Release s).1 = some s2 → Step s s2
  | invoke (s : MfMediaStream) (env : InvokeEnv) : Step s (Invoke s env).1
  | request (s : MfMediaStream) (event_type : MediaEventType) (hr : HRESULT) :
      Step s (beginWait s event_type hr)
  | wait (s : MfMediaStream) (event_type : MediaEventType) (env : WaitEnv) (r : WaitResult) :
      WaitForStreamEvent s event_type env = some r → Step s r.state

/-- The states an object can be in after any finite sequence of steps from `s0`. -/
inductive Reachable (s0 : MfMediaStream) : MfMediaStream → Prop where
  | init : Reachable s0 s0
  | step (s s2 : MfMediaStream) : Reachable s0 s → Step s s2 → Reachable s0 s2

/-- The order in which the outcome of a wait is decided, in the words of the description:
from the `Wait` result `w`, and the `last_error` `e`, the `received_type` `r` and the
`expected_type` `x` seen after wakeup. -/
def waitOutcome (w e : HRESULT) (r x : MediaEventType) : HRESULT :=
  if FAILED w then w
  else if FAILED e then e
  else if r ≠ x then E_UNEXPECTED
  else w

/-- A reference-counting call made by an owner of the object. -/
inductive RefOp where
  | addRef
  | release
deriving DecidableEq, Repr

/-- One reference-counting call: the surviving object, if any, and the returned count. -/
def applyRefOp (op : RefOp) (s : MfMediaStream) : Option MfMediaStream × Nat :=
  match op with
  | RefOp.addRef => (some (AddRef s).1, (AddRef s).2)
  | RefOp.release => Release s

/-- Runs a sequence of `AddRef` and `Release` calls; `none` as soon as a `Release` has deleted
the object. -/
def runRefOps : List RefOp → MfMediaStream → Option MfMediaStream
  | [], s => some s
  | op :: ops, s => (applyRefOp op s).1.bind (fun s2 => runRefOps ops s2)

/-- Every call of the sequence returns a positive count. -/
def keepsPositive : List RefOp → MfMediaStream → Bool
  | [], _ => true
  | op :: ops, s =>
    decide (0 < (applyRefOp op s).2) &&
      (applyRefOp op s).1.any (fun s2 => keepsPositive ops s2)

/-- An interleaving in which no owner gives up a reference it does not hold: with `held`
references outstanding, each `release` of the sequence leaves at least one. -/
def balanced : List RefOp → Nat → Bool
  | [], _ => true
  | RefOp.addRef :: ops, held => balanced ops (held + 1)
  | RefOp.release :: ops, held => decide (1 < held) && balanced ops (held - 1)

/-- An environment in which binding and the creation of the primitive both return `S_OK`. -/
def okCreateEnv : CreateEnv := { qi_hr := S_OK, qi_ptr := 1, event_hr := S_OK }

/-- The object a successful `Create` hands out for the source at address `1`. -/
def freshBridge : MfMediaStream :=
  { expected_event_ := 0
    ref_count_ := 1
    stream_event_error_ := S_OK
    stream_event_recvd_ := 0
    stream_event_ := { signaled := false }
    ptr_stream_ := 1
    ptr_event_queue_ := 1
    calls := [Call.QueryInterface S_OK, Call.EventCreate S_OK] }

/-- One run of the callback in which every call returns `S_OK` and the event has type `t`. -/
def okDelivery (t : MediaEventType) : InvokeEnv :=
  { end_hr := S_OK, type_hr := S_OK, event_type := t, set_hr := S_OK }

/-- One wait in which every call returns `S_OK` and one event, of type `t`, is delivered. -/
def okWait (t : MediaEventType) : WaitEnv :=
  { begin_hr := S_OK, deliveries := [okDelivery t], wait_hr := S_OK }

/-! ## Basic facts -/

theorem FAILED_E_FAIL : FAILED E_FAIL = true := by decide

theorem FAILED_E_UNEXPECTED : FAILED E_UNEXPECTED = true := by decide

theorem FAILED_S_OK : FAILED S_OK = false := by decide

theorem Invoke_error (s : MfMediaStream) (env : InvokeEnv)
    (h : s.stream_event_error_ = S_OK) : (Invoke s env).1.stream_event_error_ = S_OK := by
  unfold Invoke
  simp only [MfMediaStream.log, OnStreamStarted_, OnStreamSeeked_]
  split_ifs <;> simp [h]

theorem deliver_error (ds : List InvokeEnv) (s : MfMediaStream)
    (h : s.stream_event_error_ = S_OK) : (deliver s ds).stream_event_error_ = S_OK := by
  induction ds generalizing s with
  | nil => simpa [deliver] using h
  | cons d ds ih => exact ih _ (Invoke_error s d h)

theorem atWakeup_error (s : MfMediaStream) (t : MediaEventType) (env : WaitEnv)
    (h : s.stream_event_error_ = S_OK) : (atWakeup s t env).stream_event_error_ = S_OK :=
  deliver_error _ _ (by simpa [beginWait, MfMediaStream.log] using h)

theorem Invoke_expected (s : MfMediaStream) (env : InvokeEnv) :
    (Invoke s env).1.expected_event_ = s.expected_event_ := by
  unfold Invoke
  simp only [MfMediaStream.log, OnStreamStarted_, OnStreamSeeked_]
  split_ifs <;> simp

theorem deliver_expected (ds : List InvokeEnv) (s : MfMediaStream) :
    (deliver s ds).expected_event_ = s.expected_event_ := by
  induction ds generalizing s with
  | nil => simp [deliver]
  | cons d ds ih => simpa [deliver, Invoke_expected] using ih (Invoke s d).1

theorem atWakeup_expected (s : MfMediaStream) (t : MediaEventType) (env : WaitEnv) :
    (atWakeup s t env).expected_event_ = t := by
  simp [atWakeup, deliver_expected, beginWait, MfMediaStream.log]

/-- What a wait returns once `Wait` has returned `r`, the request having succeeded. -/
theorem WaitForStreamEvent_of_wait (s : MfMediaStream) (t : MediaEventType) (env : WaitEnv)
    (r : EventWaiter × HRESULT) (hb : FAILED env.begin_hr = false)
    (hw : (atWakeup s t env).stream_event_.Wait env.wait_hr = some r) :
    ∃ res, WaitForStreamEvent s t env = some res ∧
      res.hr = waitOutcome r.2 (atWakeup s t env).stream_event_error_
        (atWakeup s t env).stream_event_recvd_ (atWakeup s t env).expected_event_ ∧
      res.state = { atWakeup s t env with
        stream_event_ := r.1, calls := (atWakeup s t env).calls ++ [Call.EventWait r.2] } ∧
      (res.exit = WaitExit.handler_failed →
        FAILED (atWakeup s t env).stream_event_error_ = true) ∧
      (res.exit = WaitExit.ok → FAILED res.hr = false ∧ res.hr = r.2) ∧
      res.exit ≠ WaitExit.begin_failed := by
  unfold WaitForStreamEvent
  simp only [hb, hw, MfMediaStream.log, waitOutcome]
  split_ifs <;> simp_all

theorem EventWaiter_Wait_snd (e : EventWaiter) (w : HRESULT) (r : EventWaiter × HRESULT)
    (h : e.Wait w = some r) : r.2 = w := by
  unfold EventWaiter.Wait at h
  split_ifs at h <;> simp_all
  all_goals (rw [← h])

theorem WaitForStreamEvent_hr (s : MfMediaStream) (t : MediaEventType) (env : WaitEnv)
    (hb : FAILED env.begin_hr = false) (r : WaitResult)
    (hr : WaitForStreamEvent s t env = some r) :
    r.hr = waitOutcome env.wait_hr (atWakeup s t env).stream_event_error_
      (atWakeup s t env).stream_event_recvd_ (atWakeup s t env).expected_event_ := by
  cases hx : (atWakeup s t env).stream_event_.Wait env.wait_hr with
  | none => simp [WaitForStreamEvent, hb, hx] at hr
  | some x =>
    obtain ⟨res, hres, hhr, -⟩ := WaitForStreamEvent_of_wait s t env x hb hx
    rw [hres] at hr
    cases hr
    rw [EventWaiter_Wait_snd _ _ _ hx] at hhr
    exact hhr

/-- Claim C4. When `BeginGetEvent` fails with code `h`, `WaitForStreamEvent` returns exactly `h`
through its first `return`; the only call it has made is that `BeginGetEvent` (so neither
`Wait` nor `Set` was invoked on the primitive), and the primitive, `stream_event_recvd_` and
`stream_event_error_` are as before: only `expected_event_` was written. -/
theorem C4_begin_failure_returned_without_wait (s : MfMediaStream) (t : MediaEventType)
    (env : WaitEnv) (h : FAILED env.begin_hr = true) :
    ∃ r, WaitForStreamEvent s t env = some r ∧
      r.hr = env.begin_hr ∧
      r.exit = WaitExit.begin_failed ∧
      newCalls s r.state = [Call.BeginGetEvent env.begin_hr] ∧
      (∀ w, Call.EventWait w ∉ newCalls s r.state) ∧
      r.state = { s with expected_event_ := t,
                         calls := s.calls ++ [Call.BeginGetEvent env.begin_hr] } ∧
      r.state.stream_event_ = s.stream_event_ ∧
      r.state.stream_event_recvd_ = s.stream_event_recvd_ ∧
      r.state.stream_event_error_ = s.stream_event_error_ ∧
      r.state.expected_event_ = t := by
  refine ⟨{ state := beginWait s t env.begin_hr, hr := env.begin_hr,
            exit := WaitExit.begin_failed }, by simp [WaitForStreamEvent, h], ?_⟩
  simp [beginWait, MfMediaStream.log, newCalls]

/-- Witness for C4: on a freshly created bridge, a request failing with `E_FAIL`. -/
theorem C4_begin_failure_witness :
    FAILED E_FAIL = true ∧
    ∃ r, WaitForStreamEvent freshBridge MEStreamStarted
        { begin_hr := E_FAIL, deliveries := [], wait_hr := S_OK } = some r ∧
      r.hr = E_FAIL ∧ r.state.stream_event_ = freshBridge.stream_event_ := by
  obtain ⟨r, h1, h2, -, -, -, -, h3, -⟩ :=
    C4_begin_failure_returned_without_wait freshBridge MEStreamStarted
      { begin_hr := E_FAIL, deliveries := [], wait_hr := S_OK } (by decide)
  exact ⟨by decide, r, h1, h2, h3⟩

theorem Invoke_pass (s : MfMediaStream) (env : InvokeEnv)
    (h1 : FAILED env.end_hr = false) (h2 : FAILED env.type_hr = false)
    (h3 : s.expected_event_ = 0 ∨ env.event_type = s.expected_event_) :
    (Invoke s env).2 = env.set_hr ∧
    (Invoke s env).1.stream_event_ = (s.stream_event_.Set env.set_hr).1 ∧
    (Invoke s env).1.stream_event_recvd_ = env.event_type ∧
    (Invoke s env).1.calls = s.calls ++
      [Call.EndGetEvent env.end_hr, Call.GetType env.type_hr, Call.EventSet env.set_hr] := by
  have h4 : ¬ (0 ≠ s.expected_event_ ∧ env.event_type ≠ s.expected_event_) := by
    rcases h3 with h | h
    · simp [h]
    · simp [h]
  unfold Invoke
  simp only [MfMediaStream.log, OnStreamStarted_, OnStreamSeeked_, h1, h2, EventWaiter.Set]
  simp only [Bool.false_eq_true, if_false, h4]
  split_ifs <;> simp

theorem Invoke_reject (s : MfMediaStream) (env : InvokeEnv)
    (h : ¬ (FAILED env.end_hr = false ∧ FAILED env.type_hr = false ∧
      (s.expected_event_ = 0 ∨ env.event_type = s.expected_event_))) :
    (Invoke s env).2 = E_FAIL ∧
    (Invoke s env).1.stream_event_ = s.stream_event_ ∧
    (Invoke s env).1.stream_event_recvd_ = s.stream_event_recvd_ ∧
    (Invoke s env).1.stream_event_error_ = s.stream_event_error_ ∧
    (∀ hr, Call.EventSet hr ∉ newCalls s (Invoke s env).1) := by
  unfold Invoke newCalls
  simp only [MfMediaStream.log]
  by_cases h1 : FAILED env.end_hr = true
  · simp [h1]
  · by_cases h2 : FAILED env.type_hr = true
    · simp [h1, h2]
    · have h3 : 0 ≠ s.expected_event_ ∧ env.event_type ≠ s.expected_event_ := by
        simp only [Bool.not_eq_true] at h1 h2
        simp only [h1, h2, true_and, not_or] at h
        exact ⟨fun e => h.1 e.symm, h.2⟩
      simp [h1, h2, h3]

/-- Claim C6. `Invoke` calls `Set` on the primitive if and only if `EndGetEvent` succeeds,
`GetType` succeeds, and `expected_event_` is `0` or equals the delivered type. On that path it
does so whatever the delivered type is (`MEStreamStarted`, `MEStreamSeeked` or any other),
returns what `Set` returned, and a successful `Set` leaves the primitive signalled. In every
other case it returns `E_FAIL`, a failure code, and the primitive is untouched. -/
theorem C6_invoke_signals_iff (s : MfMediaStream) (env : InvokeEnv) :
    ((∃ hr, Call.EventSet hr ∈ newCalls s (Invoke s env).1) ↔
      (FAILED env.end_hr = false ∧ FAILED env.type_hr = false ∧
        (s.expected_event_ = 0 ∨ env.event_type = s.expected_event_))) ∧
    ((FAILED env.end_hr = false ∧ FAILED env.type_hr = false ∧
        (s.expected_event_ = 0 ∨ env.event_type = s.expected_event_)) →
      newCalls s (Invoke s env).1 =
        [Call.EndGetEvent env.end_hr, Call.GetType env.type_hr, Call.EventSet env.set_hr] ∧
      (Invoke s env).2 = env.set_hr ∧
      (Invoke s env).1.stream_event_recvd_ = env.event_type ∧
      (FAILED env.set_hr = false → (Invoke s env).1.stream_event_.signaled = true)) ∧
    (¬ (FAILED env.end_hr = false ∧ FAILED env.type_hr = false ∧
        (s.expected_event_ = 0 ∨ env.event_type = s.expected_event_)) →
      (Invoke s env).2 = E_FAIL ∧ FAILED (Invoke s env).2 = true ∧
      (Invoke s env).1.stream_event_ = s.stream_event_ ∧
      (∀ hr, Call.EventSet hr ∉ newCalls s (Invoke s env).1)) := by
  have hpass : (FAILED env.end_hr = false ∧ FAILED env.type_hr = false ∧
        (s.expected_event_ = 0 ∨ env.event_type = s.expected_event_)) →
      newCalls s (Invoke s env).1 =
        [Call.EndGetEvent env.end_hr, Call.GetType env.type_hr, Call.EventSet env.set_hr] ∧
      (Invoke s env).2 = env.set_hr ∧
      (Invoke s env).1.stream_event_recvd_ = env.event_type ∧
      (FAILED env.set_hr = false → (Invoke s env).1.stream_event_.signaled = true) := by
    rintro ⟨h1, h2, h3⟩
    obtain ⟨a, b, c, d⟩ := Invoke_pass s env h1 h2 h3
    refine ⟨by simp [newCalls, d], a, c, fun hs => ?_⟩
    rw [b]
    simp [EventWaiter.Set, hs]
  refine ⟨⟨fun ⟨hr, hmem⟩ => ?_, fun h => ?_⟩, hpass, fun h => ?_⟩
  · by_contra hc
    exact (Invoke_reject s env hc).2.2.2.2 hr hmem
  · exact ⟨env.set_hr, by simp [(hpass h).1]⟩
  · obtain ⟨a, b, -, -, e⟩ := Invoke_reject s env h
    exact ⟨a, by rw [a]; exact FAILED_E_FAIL, b, e⟩

/-- Claim C5. Once `BeginGetEvent` has succeeded: `WaitForStreamEvent` returns as soon as `Wait`
fails or finds the primitive signalled, and whenever it returns, its result is the one
`waitOutcome` decides from the `Wait` result and the fields seen after wakeup: the `Wait`
failure first, then a failed `stream_event_error_` (whatever was received), then
`E_UNEXPECTED` when the received type differs from the expected one, else the success code
of `Wait`. In particular a received type different from the expected one, with `Wait` and
`stream_event_error_` successful, gives `E_UNEXPECTED`. -/
theorem C5_wait_outcome_order (s : MfMediaStream) (t : MediaEventType) (env : WaitEnv)
    (hb : FAILED env.begin_hr = false) :
    ((FAILED env.wait_hr = true ∨ (atWakeup s t env).stream_event_.signaled = true) →
      ∃ r, WaitForStreamEvent s t env = some r) ∧
    (∀ r, WaitForStreamEvent s t env = some r →
      r.hr = waitOutcome env.wait_hr (atWakeup s t env).stream_event_error_
        (atWakeup s t env).stream_event_recvd_ (atWakeup s t env).expected_event_ ∧
      (FAILED env.wait_hr = true → r.hr = env.wait_hr) ∧
      (FAILED env.wait_hr = false → FAILED (atWakeup s t env).stream_event_error_ = true →
        r.hr = (atWakeup s t env).stream_event_error_) ∧
      (FAILED env.wait_hr = false → FAILED (atWakeup s t env).stream_event_error_ = false →
        (atWakeup s t env).stream_event_recvd_ ≠ (atWakeup s t env).expected_event_ →
        r.hr = E_UNEXPECTED) ∧
      (FAILED env.wait_hr = false → FAILED (atWakeup s t env).stream_event_error_ = false →
        (atWakeup s t env).stream_event_recvd_ = (atWakeup s t env).expected_event_ →
        r.hr = env.wait_hr ∧ FAILED r.hr = false)) ∧
    (atWakeup s t env).expected_event_ = t := by
  refine ⟨fun h => ?_, fun r hr => ?_, atWakeup_expected s t env⟩
  · have : ∃ x, (atWakeup s t env).stream_event_.Wait env.wait_hr = some x := by
      unfold EventWaiter.Wait
      rcases h with h | h
      · simp [h]
      · by_cases hw : FAILED env.wait_hr = true
        · simp [hw]
        · simp [hw, h]
    obtain ⟨x, hx⟩ := this
    obtain ⟨res, hres, -⟩ := WaitForStreamEvent_of_wait s t env x hb hx
    exact ⟨res, hres⟩
  · cases hx : (atWakeup s t env).stream_event_.Wait env.wait_hr with
    | none => simp [WaitForStreamEvent, hb, hx] at hr
    | some x =>
      obtain ⟨res, hres, hhr, -⟩ := WaitForStreamEvent_of_wait s t env x hb hx
      rw [hres] at hr
      cases hr
      rw [EventWaiter_Wait_snd _ _ _ hx] at hhr
      rw [hhr]
      unfold waitOutcome
      refine ⟨rfl, ?_, ?_, ?_, ?_⟩
      · intro h1; simp [h1]
      · intro h1 h2; simp [h1, h2]
      · intro h1 h2 h3; simp [h1, h2, h3]
      · intro h1 h2 h3; simp [h1, h2, h3]

/-- Witness for C5: on a freshly created bridge, a wait for any type (`0`) during which a
`MEStreamStarted` event is delivered returns, and returns `E_UNEXPECTED`. -/
theorem C5_wait_outcome_order_witness :
    FAILED (okWait MEStreamStarted).begin_hr = false ∧
    (∃ r, WaitForStreamEvent freshBridge 0 (okWait MEStreamStarted) = some r) ∧
    (atWakeup freshBridge 0 (okWait MEStreamStarted)).expected_event_ = 0 :=
  ⟨by decide,
   (C5_wait_outcome_order freshBridge 0 (okWait MEStreamStarted) (by decide)).1
     (Or.inr (by decide)),
   (C5_wait_outcome_order freshBridge 0 (okWait MEStreamStarted) (by decide)).2.2⟩

theorem Create_instance (p : Nat) (a : Bool) (env : CreateEnv) (s0 : MfMediaStream)
    (h : (Create p a env).ptr_instance = some s0) :
    s0.stream_event_error_ = S_OK ∧ s0.ref_count_ = 1 ∧ FAILED (Create p a env).hr = false := by
  unfold Create at h ⊢
  unfold Create_ at h ⊢
  simp only [MfMediaStream.log, MfMediaStream.ctor, AddRef, EventWaiter.Create] at h ⊢
  split_ifs at h ⊢ <;> simp_all
  all_goals (subst h; simp)

theorem WaitForStreamEvent_cases (s : MfMediaStream) (t : MediaEventType) (env : WaitEnv)
    (r : WaitResult) (h : WaitForStreamEvent s t env = some r) :
    (r.exit = WaitExit.begin_failed ∧ r.hr = env.begin_hr ∧ FAILED env.begin_hr = true ∧
      r.state = beginWait s t env.begin_hr) ∨
    (FAILED env.begin_hr = false ∧
      r.state.stream_event_error_ = (atWakeup s t env).stream_event_error_ ∧
      ((r.exit = WaitExit.wait_failed ∧ r.hr = env.wait_hr ∧ FAILED env.wait_hr = true) ∨
       (r.exit = WaitExit.handler_failed ∧ r.hr = (atWakeup s t env).stream_event_error_ ∧
          FAILED (atWakeup s t env).stream_event_error_ = true) ∨
       (r.exit = WaitExit.unexpected ∧ r.hr = E_UNEXPECTED) ∨
       (r.exit = WaitExit.ok ∧ r.hr = env.wait_hr ∧ FAILED env.wait_hr = false))) := by
  by_cases hb : FAILED env.begin_hr = true
  · left
    simp only [WaitForStreamEvent, hb, if_true, Option.some.injEq] at h
    subst h
    simp [hb]
  · right
    simp only [Bool.not_eq_true] at hb
    refine ⟨hb, ?_⟩
    cases hx : (atWakeup s t env).stream_event_.Wait env.wait_hr with
    | none => simp [WaitForStreamEvent, hb, hx] at h
    | some x =>
      have hx2 := EventWaiter_Wait_snd _ _ _ hx
      unfold WaitForStreamEvent at h
      simp only [hb, hx, MfMediaStream.log, hx2] at h
      split_ifs at h <;> simp only [Option.some.injEq] at h <;> subst h <;> simp_all

theorem Step_error (s s2 : MfMediaStream) (h : Step s s2)
    (hs : s.stream_event_error_ = S_OK) : s2.stream_event_error_ = S_OK := by
  cases h with
  | create_ p env =>
    unfold Create_
    simp only [MfMediaStream.log, EventWaiter.Create]
    split_ifs <;> simp [hs]
  | addRef => simpa [AddRef] using hs
  | release _ hrel =>
    simp only [Release] at hrel
    split_ifs at hrel
    simp only [Option.some.injEq] at hrel
    subst hrel
    simpa using hs
  | invoke env => exact Invoke_error s env hs
  | request t hr => simpa [beginWait, MfMediaStream.log] using hs
  | wait t env r h =>
    rcases WaitForStreamEvent_cases s t env r h with ⟨-, -, -, h4⟩ | ⟨-, h2, -⟩
    · rw [h4]
      simpa [beginWait, MfMediaStream.log] using hs
    · rw [h2]
      exact atWakeup_error s t env hs

theorem Reachable_error (s0 s : MfMediaStream) (h : Reachable s0 s)
    (h0 : s0.stream_event_error_ = S_OK) : s.stream_event_error_ = S_OK := by
  induction h with
  | init => exact h0
  | step a b _ hstep ih => exact Step_error a b hstep ih

/-- Claim C1. On every bridge reachable from a successful `Create`, and for every event type `t`
(`MEStreamStarted` in particular): when `WaitForStreamEvent(t)` is called, `BeginGetEvent`
succeeds, `Invoke` runs once with `EndGetEvent` and `GetType` succeeding and the delivered
type equal to `t`, and `Set` and `Wait` succeed, then `WaitForStreamEvent` returns, through
its last `return`, the success code of `Wait`, and `stream_event_error_` holds a success
code. -/
theorem C1_wait_matching_event_succeeds (p : Nat) (a : Bool) (cenv : CreateEnv)
    (s0 s : MfMediaStream) (t : MediaEventType) (env : WaitEnv) (d : InvokeEnv)
    (hcreate : (Create p a cenv).ptr_instance = some s0)
    (hreach : Reachable s0 s)
    (hbegin : FAILED env.begin_hr = false)
    (hdel : env.deliveries = [d])
    (hend : FAILED d.end_hr = false)
    (htype : FAILED d.type_hr = false)
    (hty : d.event_type = t)
    (hset : FAILED d.set_hr = false)
    (hwait : FAILED env.wait_hr = false) :
    ∃ r, WaitForStreamEvent s t env = some r ∧
      FAILED r.hr = false ∧
      FAILED r.state.stream_event_error_ = false ∧
      r.hr = env.wait_hr ∧
      r.exit = WaitExit.ok := by
  have herr : s.stream_event_error_ = S_OK :=
    Reachable_error s0 s hreach (Create_instance p a cenv s0 hcreate).1
  have hwk : atWakeup s t env = (Invoke (beginWait s t env.begin_hr) d).1 := by
    simp [atWakeup, hdel, deliver]
  have hexp : (beginWait s t env.begin_hr).expected_event_ = t := by
    simp [beginWait, MfMediaStream.log]
  obtain ⟨-, h2, h3, -⟩ :=
    Invoke_pass (beginWait s t env.begin_hr) d hend htype (Or.inr (by rw [hexp, hty]))
  have hsig : (atWakeup s t env).stream_event_.signaled = true := by
    rw [hwk, h2]
    simp [EventWaiter.Set, hset]
  have hx : (atWakeup s t env).stream_event_.Wait env.wait_hr =
      some ({ signaled := false }, env.wait_hr) := by
    simp [EventWaiter.Wait, hwait, hsig]
  obtain ⟨res, hres, -⟩ := WaitForStreamEvent_of_wait s t env _ hbegin hx
  have herr2 := atWakeup_error s t env herr
  have hrecv : (atWakeup s t env).stream_event_recvd_ = (atWakeup s t env).expected_event_ := by
    rw [atWakeup_expected, hwk, h3, hty]
  rcases WaitForStreamEvent_cases s t env res hres with ⟨-, -, hf, -⟩ | ⟨-, hse, hcase⟩
  · rw [hbegin] at hf
    exact absurd hf (by decide)
  · have hfe : FAILED (atWakeup s t env).stream_event_error_ = false := by
      rw [herr2]
      exact FAILED_S_OK
    have hhr := ((WaitForStreamEvent_hr s t env hbegin res hres))
    refine ⟨res, hres, ?_⟩
    rw [hse, hfe]
    rcases hcase with ⟨-, -, hf⟩ | ⟨-, -, hf⟩ | ⟨-, hu⟩ | ⟨hok, hw, -⟩
    · rw [hwait] at hf
      exact absurd hf (by decide)
    · rw [hfe] at hf
      exact absurd hf (by decide)
    · exfalso
      have := hhr
      rw [hu] at this
      simp [waitOutcome, hwait, hfe, hrecv] at this
      rw [← this] at hwait
      exact absurd hwait (by decide)
    · exact ⟨by rw [hw]; exact hwait, rfl, hw, hok⟩

/-- Witness for C1: a freshly created bridge waits for `MEStreamStarted`, and that event is
delivered, every call returning `S_OK`. -/
theorem C1_wait_matching_event_succeeds_witness :
    (Create 1 true okCreateEnv).ptr_instance = some freshBridge ∧
    Reachable freshBridge freshBridge ∧
    ∃ r, WaitForStreamEvent freshBridge MEStreamStarted (okWait MEStreamStarted) = some r ∧
      FAILED r.hr = false ∧
      FAILED r.state.stream_event_error_ = false ∧
      r.hr = (okWait MEStreamStarted).wait_hr ∧
      r.exit = WaitExit.ok :=
  ⟨by decide, Reachable.init,
   C1_wait_matching_event_succeeds 1 true okCreateEnv freshBridge freshBridge MEStreamStarted
     (okWait MEStreamStarted) (okDelivery MEStreamStarted) (by decide) Reachable.init
     (by decide) rfl (by decide) (by decide) rfl (by decide) (by decide)⟩

/-- Claim C2, the code at the failing input. A freshly created bridge waits for
`MEStreamStarted`; `BeginGetEvent` succeeds and `Invoke` runs once with a successfully
retrieved `MEStreamSeeked` event. `Invoke` returns `E_FAIL` without calling `Set`, the
primitive stays unsignalled, and `WaitForStreamEvent` does not return `E_UNEXPECTED`: its
`Wait` never returns. -/
theorem C2_started_seeked_wait_never_returns :
    (Create 1 true okCreateEnv).ptr_instance = some freshBridge ∧
    (Invoke (beginWait freshBridge MEStreamStarted S_OK) (okDelivery MEStreamSeeked)).2
      = E_FAIL ∧
    (atWakeup freshBridge MEStreamStarted (okWait MEStreamSeeked)).stream_event_.signaled
      = false ∧
    newCalls freshBridge (atWakeup freshBridge MEStreamStarted (okWait MEStreamSeeked))
      = [Call.BeginGetEvent S_OK, Call.EndGetEvent S_OK, Call.GetType S_OK] ∧
    WaitForStreamEvent freshBridge MEStreamStarted (okWait MEStreamSeeked) = none := by
  decide

/-- Claim C3, the code at the failing input. A freshly created bridge waits with expected type
`0` (accept any); `BeginGetEvent` succeeds, `Invoke` retrieves and dispatches a
`MEStreamStarted` event and signals the primitive, `Wait` succeeds. `WaitForStreamEvent`
returns `E_UNEXPECTED`, a failure code, through its type comparison; the same happens for
`MEStreamSeeked`. -/
theorem C3_accept_any_wait_returns_unexpected :
    (Invoke (beginWait freshBridge 0 S_OK) (okDelivery MEStreamStarted)).2 = S_OK ∧
    (atWakeup freshBridge 0 (okWait MEStreamStarted)).stream_event_.signaled = true ∧
    (WaitForStreamEvent freshBridge 0 (okWait MEStreamStarted)).map
      (fun r => (r.hr, r.exit)) = some (E_UNEXPECTED, WaitExit.unexpected) ∧
    (WaitForStreamEvent freshBridge 0 (okWait MEStreamSeeked)).map
      (fun r => (r.hr, r.exit)) = some (E_UNEXPECTED, WaitExit.unexpected) ∧
    FAILED E_UNEXPECTED = true := by
  decide

/-- Claim C7. The outcome of `Create`, for every input. A null source gives `E_INVALIDARG`. For
a non-null source, `Create` succeeds if and only if the binding call (`QueryInterface` for the
event generator) and the creation of the primitive were both made and both succeeded; a
binding failure, whatever its code, is reported as `E_FAIL`; a failure of the primitive's
creation is returned unchanged; and on success the object handed out has reference count
exactly `1`. When the object itself cannot be allocated neither call is made and
`E_OUTOFMEMORY` is returned; otherwise the binding call is made with the environment's
answer, and the primitive's creation is attempted exactly when binding succeeded. -/
theorem C7_create_outcome (p : Nat) (a : Bool) (env : CreateEnv) :
    (p = 0 → (Create p a env).hr = E_INVALIDARG ∧ (Create p a env).ptr_instance = none) ∧
    (p ≠ 0 →
      (FAILED (Create p a env).hr = false ↔
        (∃ b, Call.QueryInterface b ∈ (Create p a env).calls ∧ FAILED b = false) ∧
        (∃ c, Call.EventCreate c ∈ (Create p a env).calls ∧ FAILED c = false)) ∧
      (∀ b, Call.QueryInterface b ∈ (Create p a env).calls → FAILED b = true →
        (Create p a env).hr = E_FAIL ∧ FAILED (Create p a env).hr = true) ∧
      (∀ c, Call.EventCreate c ∈ (Create p a env).calls → FAILED c = true →
        (Create p a env).hr = c) ∧
      (FAILED (Create p a env).hr = false →
        ∃ inst, (Create p a env).ptr_instance = some inst ∧ inst.ref_count_ = 1) ∧
      (FAILED (Create p a env).hr = true → (Create p a env).ptr_instance = none) ∧
      (a = false → (Create p a env).hr = E_OUTOFMEMORY ∧ (Create p a env).calls = []) ∧
      (a = true →
        (FAILED (Create p a env).hr = false ↔
          FAILED env.qi_hr = false ∧ FAILED env.event_hr = false) ∧
        (FAILED env.qi_hr = true → (Create p a env).calls = [Call.QueryInterface env.qi_hr]) ∧
        (FAILED env.qi_hr = false → (Create p a env).calls =
          [Call.QueryInterface env.qi_hr, Call.EventCreate env.event_hr]))) := by
  have hE : FAILED E_FAIL = true := FAILED_E_FAIL
  have hM : FAILED E_OUTOFMEMORY = true := by decide
  constructor
  · intro hp
    simp [Create, hp]
  · intro hp
    cases a with
    | false => simp [Create, hp, hM]
    | true =>
      by_cases hq : FAILED env.qi_hr = true
      · simp [Create, Create_, hp, hq, hE, MfMediaStream.log, MfMediaStream.ctor]
      · simp only [Bool.not_eq_true] at hq
        by_cases he : FAILED env.event_hr = true
        · simp [Create, Create_, hp, hq, he, MfMediaStream.log, MfMediaStream.ctor,
            EventWaiter.Create]
        · simp only [Bool.not_eq_true] at he
          simp [Create, Create_, hp, hq, he, MfMediaStream.log, MfMediaStream.ctor,
            EventWaiter.Create, AddRef]

/-- Witness for C7: a non-null source whose binding fails with `E_INVALIDARG`; `Create`
reports `E_FAIL`. -/
theorem C7_create_outcome_witness :
    (1 : Nat) ≠ 0 ∧
    Call.QueryInterface E_INVALIDARG ∈
      (Create 1 true { qi_hr := E_INVALIDARG, qi_ptr := 0, event_hr := S_OK }).calls ∧
    FAILED E_INVALIDARG = true ∧
    (Create 1 true { qi_hr := E_INVALIDARG, qi_ptr := 0, event_hr := S_OK }).hr = E_FAIL :=
  ⟨by decide, by decide, by decide,
   (((C7_create_outcome 1 true { qi_hr := E_INVALIDARG, qi_ptr := 0, event_hr := S_OK }).2
      (by decide)).2.1 E_INVALIDARG (by decide) (by decide)).1⟩

theorem AddRef_count (s : MfMediaStream) :
    (AddRef s).1.ref_count_ = (s.ref_count_ + 1) % 2 ^ 32 := rfl

theorem Release_some (s s2 : MfMediaStream) (h : (Release s).1 = some s2) :
    s2.ref_count_ = (s.ref_count_ + (2 ^ 32 - 1)) % 2 ^ 32 ∧ s2.ref_count_ ≠ 0 ∧
      (Release s).2 = s2.ref_count_ := by
  simp only [Release] at h ⊢
  split_ifs at h ⊢ with hz
  simp only [Option.some.injEq] at h
  subst h
  exact ⟨rfl, hz, rfl⟩

theorem runRefOps_count (ops : List RefOp) (s s2 : MfMediaStream)
    (h : runRefOps ops s = some s2) (hs : s.ref_count_ < 2 ^ 32) :
    s2.ref_count_ < 2 ^ 32 ∧
    (s2.ref_count_ + ops.count RefOp.release) % 2 ^ 32 =
      (s.ref_count_ + ops.count RefOp.addRef) % 2 ^ 32 := by
  induction ops generalizing s with
  | nil =>
    simp only [runRefOps, Option.some.injEq] at h
    subst h
    simpa using hs
  | cons op ops ih =>
    cases op with
    | addRef =>
      simp only [runRefOps, applyRefOp, Option.some_bind] at h
      have hlt : (AddRef s).1.ref_count_ < 2 ^ 32 := by
        rw [AddRef_count]
        exact Nat.mod_lt _ (by norm_num)
      obtain ⟨h1, h2⟩ := ih _ h hlt
      rw [AddRef_count] at h2
      refine ⟨h1, ?_⟩
      have c1 : (RefOp.addRef :: ops).count RefOp.release = ops.count RefOp.release := by
        simp [List.count_cons]
      have c2 : (RefOp.addRef :: ops).count RefOp.addRef = ops.count RefOp.addRef + 1 := by
        simp [List.count_cons]
      rw [c1, c2]
      norm_num at h2 ⊢
      omega
    | release =>
      simp only [runRefOps, applyRefOp] at h
      cases hrel : (Release s).1 with
      | none => simp [hrel] at h
      | some s1 =>
        simp only [hrel, Option.some_bind] at h
        obtain ⟨e1, -, -⟩ := Release_some s s1 hrel
        have hlt : s1.ref_count_ < 2 ^ 32 := by
          rw [e1]
          exact Nat.mod_lt _ (by norm_num)
        obtain ⟨h1, h2⟩ := ih _ h hlt
        rw [e1] at h2
        refine ⟨h1, ?_⟩
        have c1 : (RefOp.release :: ops).count RefOp.release =
            ops.count RefOp.release + 1 := by
          simp [List.count_cons]
        have c2 : (RefOp.release :: ops).count RefOp.addRef = ops.count RefOp.addRef := by
          simp [List.count_cons]
        rw [c1, c2]
        norm_num at h2 ⊢
        omega

theorem keepsPositive_runs (ops : List RefOp) (s : MfMediaStream)
    (h : keepsPositive ops s = true) : ∃ s2, runRefOps ops s = some s2 := by
  induction ops generalizing s with
  | nil => exact ⟨s, rfl⟩
  | cons op ops ih =>
    simp only [keepsPositive, Bool.and_eq_true] at h
    cases hop : (applyRefOp op s).1 with
    | none => simp [hop] at h
    | some s1 =>
      simp only [hop, Option.any_some] at h
      simpa [runRefOps, hop] using ih _ h.2

theorem balanced_keepsPositive (ops : List RefOp) (held : Nat) (s : MfMediaStream)
    (hs : s.ref_count_ = held) (hpos : 1 ≤ held)
    (hbound : held + ops.count RefOp.addRef < 2 ^ 32)
    (h : balanced ops held = true) : keepsPositive ops s = true := by
  induction ops generalizing s held with
  | nil => rfl
  | cons op ops ih =>
    cases op with
    | addRef =>
      have c2 : (RefOp.addRef :: ops).count RefOp.addRef = ops.count RefOp.addRef + 1 := by
        simp [List.count_cons]
      rw [c2] at hbound
      simp only [balanced] at h
      have hc : (AddRef s).1.ref_count_ = held + 1 := by
        rw [AddRef_count, hs]
        norm_num at hbound ⊢
        omega
      have h2 : (AddRef s).2 = held + 1 := hc
      simp only [keepsPositive, applyRefOp, Option.any_some, Bool.and_eq_true,
        decide_eq_true_eq]
      exact ⟨by omega, ih (held + 1) _ hc (by omega) (by omega) h⟩
    | release =>
      have c2 : (RefOp.release :: ops).count RefOp.addRef = ops.count RefOp.addRef := by
        simp [List.count_cons]
      rw [c2] at hbound
      simp only [balanced, Bool.and_eq_true, decide_eq_true_eq] at h
      have hne : (s.ref_count_ + (2 ^ 32 - 1)) % 2 ^ 32 = held - 1 := by
        rw [hs]
        norm_num at hbound ⊢
        omega
      have hrel : Release s = (some { s with ref_count_ := held - 1 }, held - 1) := by
        simp only [Release, hne]
        rw [if_neg (by omega)]
      simp only [keepsPositive, applyRefOp, hrel, Option.any_some, Bool.and_eq_true,
        decide_eq_true_eq]
      exact ⟨by omega, ih (held - 1) _ rfl (by omega) (by omega) h.2⟩

/-- Claim C8. On the 32-bit reference count. `AddRef` returns the incremented count and
`Release` the decremented count (both modulo `2 ^ 32`, the object keeping that value);
`AddRef` followed by `Release` leaves the count unchanged; `Release` deletes the object
exactly when it brings the count to zero. Starting from count `1` (a freshly created bridge),
for every `n` and every interleaving of `n` `AddRef` calls with `n` `Release` calls that keeps
the count positive, none of these calls deletes the object, the count is `1` again, and the
next `Release`, the `(n+1)`-th, returns `0` and deletes it. Lastly, as long as the 32-bit
count cannot wrap, every interleaving in which no reference is released before it is held
keeps the count positive. -/
theorem C8_ref_count (s : MfMediaStream) (hs : s.ref_count_ < 2 ^ 32) :
    ((AddRef s).2 = (s.ref_count_ + 1) % 2 ^ 32 ∧
      (AddRef s).1.ref_count_ = (AddRef s).2 ∧
      (s.ref_count_ + 1 < 2 ^ 32 → (AddRef s).2 = s.ref_count_ + 1)) ∧
    ((Release s).2 = (s.ref_count_ + (2 ^ 32 - 1)) % 2 ^ 32 ∧
      (0 < s.ref_count_ → (Release s).2 = s.ref_count_ - 1) ∧
      (∀ s2, (Release s).1 = some s2 → s2.ref_count_ = (Release s).2)) ∧
    ((Release (AddRef s).1).2 = s.ref_count_ ∧
      (0 < s.ref_count_ → (Release (AddRef s).1).1 = some s)) ∧
    ((Release s).1 = none ↔ (Release s).2 = 0) ∧
    (s.ref_count_ = 1 → ∀ (n : Nat) (ops : List RefOp),
      ops.count RefOp.addRef = n → ops.count RefOp.release = n →
      keepsPositive ops s = true →
      ∃ s2, runRefOps ops s = some s2 ∧ s2.ref_count_ = 1 ∧ Release s2 = (none, 0)) ∧
    (s.ref_count_ = 1 → ∀ ops : List RefOp,
      ops.count RefOp.addRef + 1 < 2 ^ 32 → balanced ops 1 = true →
      keepsPositive ops s = true) := by
  refine ⟨⟨rfl, rfl, ?_⟩, ⟨?_, ?_, ?_⟩, ⟨?_, ?_⟩, ?_, ?_, ?_⟩
  · intro h
    exact Nat.mod_eq_of_lt h
  · simp only [Release]
    split_ifs <;> rfl
  · intro h
    have : (s.ref_count_ + (2 ^ 32 - 1)) % 2 ^ 32 = s.ref_count_ - 1 := by
      norm_num at hs ⊢
      omega
    simp only [Release]
    split_ifs <;> exact this
  · intro s2 h
    exact (Release_some s s2 h).2.2.symm
  · have : ((s.ref_count_ + 1) % 2 ^ 32 + (2 ^ 32 - 1)) % 2 ^ 32 = s.ref_count_ := by
      norm_num at hs ⊢
      omega
    simp only [Release, AddRef]
    split_ifs <;> exact this
  · intro h
    have : ((s.ref_count_ + 1) % 2 ^ 32 + (2 ^ 32 - 1)) % 2 ^ 32 = s.ref_count_ := by
      norm_num at hs ⊢
      omega
    simp only [Release, AddRef, this]
    rw [if_neg (by omega)]
  · simp only [Release]
    split_ifs with hz
    · exact ⟨fun _ => hz, fun _ => rfl⟩
    · exact ⟨fun h => by simp at h, fun h => absurd h hz⟩
  · intro h1 n ops ha hr hk
    obtain ⟨s2, hrun⟩ := keepsPositive_runs ops s hk
    obtain ⟨hlt, hmod⟩ := runRefOps_count ops s s2 hrun hs
    have h2 : s2.ref_count_ = 1 := by
      rw [ha, hr, h1] at hmod
      norm_num at hlt hmod
      omega
    refine ⟨s2, hrun, h2, ?_⟩
    simp [Release, h2]
  · intro h1 ops hb hbal
    exact balanced_keepsPositive ops 1 s h1 (le_refl 1) (by omega) hbal

/-- Witness for C8: on a freshly created bridge, two `AddRef` calls interleaved with two
`Release` calls; the third `Release` deletes the object. -/
theorem C8_ref_count_witness :
    freshBridge.ref_count_ < 2 ^ 32 ∧ freshBridge.ref_count_ = 1 ∧
    keepsPositive [RefOp.addRef, RefOp.release, RefOp.addRef, RefOp.release] freshBridge
      = true ∧
    ∃ s2, runRefOps [RefOp.addRef, RefOp.release, RefOp.addRef, RefOp.release] freshBridge
        = some s2 ∧ s2.ref_count_ = 1 ∧ Release s2 = (none, 0) :=
  ⟨by decide, rfl, by decide,
   (C8_ref_count freshBridge (by decide)).2.2.2.2.1 rfl 2
     [RefOp.addRef, RefOp.release, RefOp.addRef, RefOp.release] (by decide) (by decide)
     (by decide)⟩

/-- Claim C10. In every state reachable from the constructor through `Create_`, `AddRef`,
`Release`, `Invoke` (whatever it retrieves) and `WaitForStreamEvent`, `stream_event_error_`
is `S_OK`. Consequently a `WaitForStreamEvent` called in such a state never leaves through
its "event handling failed" `return`, and what it returns is one of: the `BeginGetEvent`
failure, the `Wait` failure, `E_UNEXPECTED`, or the success code of `Wait`. -/
theorem C10_last_error_always_ok (s : MfMediaStream)
    (h : Reachable MfMediaStream.ctor s) :
    s.stream_event_error_ = S_OK ∧
    ∀ (t : MediaEventType) (env : WaitEnv) (r : WaitResult),
      WaitForStreamEvent s t env = some r →
      r.exit ≠ WaitExit.handler_failed ∧
      r.state.stream_event_error_ = S_OK ∧
      ((r.exit = WaitExit.begin_failed ∧ r.hr = env.begin_hr ∧ FAILED env.begin_hr = true) ∨
       (r.exit = WaitExit.wait_failed ∧ r.hr = env.wait_hr ∧ FAILED env.wait_hr = true) ∨
       (r.exit = WaitExit.unexpected ∧ r.hr = E_UNEXPECTED) ∨
       (r.exit = WaitExit.ok ∧ r.hr = env.wait_hr ∧ FAILED env.wait_hr = false)) := by
  have herr : s.stream_event_error_ = S_OK := Reachable_error _ s h rfl
  refine ⟨herr, fun t env r hr => ?_⟩
  have hst : r.state.stream_event_error_ = S_OK :=
    Step_error s r.state (Step.wait s t env r hr) herr
  have hwk := atWakeup_error s t env herr
  rcases WaitForStreamEvent_cases s t env r hr with ⟨h1, h2, h3, -⟩ | ⟨-, -, hcase⟩
  · exact ⟨by rw [h1]; decide, hst, Or.inl ⟨h1, h2, h3⟩⟩
  · rcases hcase with ⟨h1, h2, h3⟩ | ⟨-, -, h3⟩ | ⟨h1, h2⟩ | ⟨h1, h2, h3⟩
    · exact ⟨by rw [h1]; decide, hst, Or.inr (Or.inl ⟨h1, h2, h3⟩)⟩
    · rw [hwk] at h3
      exact absurd h3 (by decide)
    · exact ⟨by rw [h1]; decide, hst, Or.inr (Or.inr (Or.inl ⟨h1, h2⟩))⟩
    · exact ⟨by rw [h1]; decide, hst, Or.inr (Or.inr (Or.inr ⟨h1, h2, h3⟩))⟩

/-- Witness for C10: the state after the constructor, `Create_`, `AddRef`, and one run of
`Invoke` delivering a `MEStreamSeeked` event. -/
theorem C10_last_error_always_ok_witness :
    Reachable MfMediaStream.ctor
      (Invoke (AddRef (Create_ MfMediaStream.ctor 1 okCreateEnv).1).1
        (okDelivery MEStreamSeeked)).1 ∧
    (Invoke (AddRef (Create_ MfMediaStream.ctor 1 okCreateEnv).1).1
        (okDelivery MEStreamSeeked)).1.stream_event_error_ = S_OK :=
  ⟨Reachable.step _ _ (Reachable.step _ _ (Reachable.step _ _ Reachable.init
      (Step.create_ _ 1 okCreateEnv)) (Step.addRef _)) (Step.invoke _ _),
   (C10_last_error_always_ok _
    (Reachable.step _ _ (Reachable.step _ _ (Reachable.step _ _ Reachable.init
      (Step.create_ _ 1 okCreateEnv)) (Step.addRef _)) (Step.invoke _ _))).1⟩

end WebmMfUtil
